import Mathlib

/-!
Shallow embedding of `src/index.js` (siyo/kitazawagosho), a home-monitoring
bot that polls a Netatmo weather station, a Bravia TV and a BLECAST_BL BLE
light beacon, folds the readings into a composite status string and posts it
to Twitter, optionally with a Raspberry-Pi camera photo.

The source file contains two complete variants of the program separated by a
marker: variant A (lines 1-268, async/await style) and variant B (lines
269-525, callback style).  Definitions suffixed `B` embed the second variant;
unsuffixed definitions (or suffix `A`) embed the first.

Modelling conventions:
* JS numbers carried by Netatmo readings are modelled as `Int`; lux samples,
  byte values and millisecond clocks as `Nat`.
* JS strings are Lean `String`s (sequences of Unicode code points).  The
  strict-mode JS exceptions that matter here (Buffer.readUInt8 out of range,
  assignment to a `const` binding) are modelled with `Except` / explicit
  `fault` fields.
* Asynchronous effects are made explicit: each loop tick or event handler is
  a pure function from its inputs (resolved results of the external calls,
  current `AppState`) to the successor state plus lists of observable
  effects (attempted status posts, error-log lines, unhandled promise
  rejections, camera re-arms).  Log line contents are opaque markers.
-/

namespace Kitazawagosho

/-- Netatmo `dashboard_data` reading; the five numeric fields used by
`parseNetatmoDevice` (src/index.js lines 161-166).  Values modelled as
integers. -/
structure Reading where
  Temperature : Int
  Humidity : Int
  Pressure : Int
  CO2 : Int
  Noise : Int
deriving DecidableEq

/-- Netatmo device record: `dashboard_data` may be absent
(src/index.js line 154-156). -/
structure Device where
  dashboard_data : Option Reading
deriving DecidableEq

/-- Result of `getPlayingContentInfo`: `title` plus `programTitle`.  A JS
`undefined`/empty `programTitle` is modelled as `""` (both are falsy in the
`if (info.programTitle)` test at src/index.js line 233). -/
structure BraviaInfo where
  title : String
  programTitle : String
deriving DecidableEq

/-- Mutable fields of `App` relevant to status aggregation
(src/index.js lines 65-67). -/
structure AppState where
  luxes : List Nat
  netatmoStatus : String
  braviaStatus : String
deriving DecidableEq

/-- Constructor state of `App` (src/index.js lines 65-67). -/
def initialState : AppState :=
  { luxes := [], netatmoStatus := "🌬 N/A", braviaStatus := "📺 N/A" }

/-- IMG_FILENAME constant (src/index.js line 46). -/
def IMG_FILENAME : String := "raspicam.jpg"

/-- Composite status string posted by every publish site:
`${this.netatmoStatus} ${this.braviaStatus}`
(src/index.js lines 124, 146, 183, 421). -/
def composite (s : AppState) : String :=
  s.netatmoStatus ++ " " ++ s.braviaStatus

/-! Checks that the embedded emoji literals are byte-for-byte the literals of
the source file (some carry the U+FE0F variation selector, some do not). -/

example : "🌬 N/A".data.map Char.toNat = [0x1F32C, 0x20, 0x4E, 0x2F, 0x41] := by decide
example : "📺 N/A".data.map Char.toNat = [0x1F4FA, 0x20, 0x4E, 0x2F, 0x41] := by decide
example : "☀️".data.map Char.toNat = [0x2600, 0xFE0F] := by decide
example : "🌤".data.map Char.toNat = [0x1F324] := by decide
example : "⛅️".data.map Char.toNat = [0x26C5, 0xFE0F] := by decide
example : "☁️".data.map Char.toNat = [0x2601, 0xFE0F] := by decide
example : "💡".data.map Char.toNat = [0x1F4A1] := by decide
example : "🕯".data.map Char.toNat = [0x1F56F] := by decide
example : "👻".data.map Char.toNat = [0x1F47B] := by decide
example : "💡💤".data.map Char.toNat = [0x1F4A1, 0x1F4A4] := by decide
example : "🌡".data.map Char.toNat = [0x1F321] := by decide
example : "℃".data.map Char.toNat = [0x2103] := by decide
example : "💧".data.map Char.toNat = [0x1F4A7] := by decide
example : "🎈".data.map Char.toNat = [0x1F388] := by decide
example : "🌳".data.map Char.toNat = [0x1F333] := by decide
example : "🔊".data.map Char.toNat = [0x1F50A] := by decide
example : "📸".data.map Char.toNat = [0x1F4F8] := by decide
example : " ⏰ ".data.map Char.toNat = [0x20, 0x23F0, 0x20] := by decide

/-! Light-level sampler: `_calcLux`. -/

/-- The `_.reduce((memo, lux) => memo += lux, 0)` total of the lux buffer
(src/index.js lines 249-251). -/
def sumLuxes (l : List Nat) : Nat :=
  l.foldl (fun memo lux => memo + lux) 0

/-- JS `Math.round(t / n)` for natural `t` and positive natural `n`
(src/index.js line 253): the half-up rounding `floor (t/n + 1/2)`, which on
naturals is `(2*t + n) / (2*n)` in truncating division.  The equation with
`Nat.floor` over `ℚ` is proved in `c3_calcLux_mean_and_buckets`. -/
def jsRoundDiv (t n : Nat) : Nat :=
  (2 * t + n) / (2 * n)

/-- Variant A `_calcLux` (src/index.js lines 245-265).  Input: the `luxes`
buffer; output: the returned fragment and the buffer it leaves behind
(cleared to `[]` on the main path; the early-return path leaves the — then
necessarily empty — buffer untouched). -/
def calcLux (luxes : List Nat) : String × List Nat :=
  if luxes.length = 0 then
    ("💡💤" ++ " ", luxes)
  else
    let total := sumLuxes luxes
    let val := jsRoundDiv total luxes.length
    let emoji :=
      if val > 2750 then "☀️" else
      if val > 2000 then "🌤" else
      if val > 1000 then "⛅️" else
      if val > 500 then "☁️" else
      if val > 100 then "💡" else
      if val > 10 then "🕯" else "👻"
    (emoji ++ " " ++ toString val ++ " ", [])

/-- Variant B `_calcLux` (src/index.js lines 502-522); textually the same
algorithm as variant A. -/
def calcLuxB (luxes : List Nat) : String × List Nat :=
  if luxes.length = 0 then
    ("💡💤" ++ " ", luxes)
  else
    let total := sumLuxes luxes
    let val := jsRoundDiv total luxes.length
    let emoji :=
      if val > 2750 then "☀️" else
      if val > 2000 then "🌤" else
      if val > 1000 then "⛅️" else
      if val > 500 then "☁️" else
      if val > 100 then "💡" else
      if val > 10 then "🕯" else "👻"
    (emoji ++ " " ++ toString val ++ " ", [])

/-! Weather snapshot builder: `parseNetatmoDevice`. -/

/-- The literal `{key, emoji, unit}` table of `parseNetatmoDevice`
(src/index.js lines 161-166), with the `data[o.key]` lookup resolved to the
record field.  Note the Noise unit string is `"dB "` — it carries a trailing
space in the source. -/
def netatmoFields (data : Reading) : List (String × Int × String) :=
  [("🌡", data.Temperature, "℃"),
   ("💧", data.Humidity, "%"),
   ("🎈", data.Pressure, "hPa"),
   ("🌳", data.CO2, "ppm"),
   ("🔊", data.Noise, "dB ")]

/-- Variant A `parseNetatmoDevice` (src/index.js lines 152-172).  Returns the
formatted fragment together with the warning-log lines emitted (`log.warn`
on absent `dashboard_data`; the format produces `data: undefined`). -/
def parseNetatmoDevice (device : Device) : String × List String :=
  match device.dashboard_data with
  | none => ("", ["data: undefined"])
  | some data =>
      ((netatmoFields data).foldl
        (fun status o => status ++ o.1 ++ " " ++ toString o.2.1 ++ o.2.2 ++ " ") "",
       [])

/-- Variant B `parseNetatmoDevice` (src/index.js lines 430-450); textually
the same algorithm as variant A. -/
def parseNetatmoDeviceB (device : Device) : String × List String :=
  match device.dashboard_data with
  | none => ("", ["data: undefined"])
  | some data =>
      ((netatmoFields data).foldl
        (fun status o => status ++ o.1 ++ " " ++ toString o.2.1 ++ o.2.2 ++ " ") "",
       [])

/-! Display status: `_getBraviaStatus` and the INVALID_TEXT_REGEXP strip. -/

/-- One alternative of `INVALID_TEXT_REGEXP` (src/index.js line 48):
`[-]` is the BMP private use area, `\uD83C[\uDF00-\uDFFF]` the
surrogate pairs for U+1F300-U+1F3FF and `\uD83D[\uDC00-\uDDFF]` those for
U+1F400-U+1F5FF. -/
def isInvalidCodePoint (c : Char) : Bool :=
  decide (0xE000 ≤ c.toNat ∧ c.toNat ≤ 0xF8FF) ||
  decide (0x1F300 ≤ c.toNat ∧ c.toNat ≤ 0x1F3FF) ||
  decide (0x1F400 ≤ c.toNat ∧ c.toNat ≤ 0x1F5FF)

/-- JS `s.replace(INVALID_TEXT_REGEXP, '')` (src/index.js line 234).  Every
regex match is a single code point (one BMP unit or one surrogate pair), so
the global replace deletes exactly the code points in the three ranges. -/
def stripInvalid (s : String) : String :=
  ⟨s.data.filter (fun c => !isInvalidCodePoint c)⟩

/-- Variant A `_getBraviaStatus` (src/index.js lines 227-243), as a function
of the resolved results of the two Bravia calls.  The surrounding
`try/catch` converts any failure of either call into the fragment `?`.  When
the power status is not `active` the second call is never made, so its
result parameter is unused in that branch. -/
def getBraviaStatusA (powerRes : Except String String)
    (infoRes : Except String BraviaInfo) : String :=
  match powerRes with
  | Except.error _ => "?"
  | Except.ok power =>
    if power = "active" then
      match infoRes with
      | Except.error _ => "?"
      | Except.ok info =>
          info.title ++
            (if info.programTitle = "" then ""
             else ": " ++ stripInvalid info.programTitle)
    else power

/-- Variant B `_getBraviaStatus` (src/index.js lines 482-500): the same
promise chain with a trailing `.catch` returning `?`. -/
def getBraviaStatusB (powerRes : Except String String)
    (infoRes : Except String BraviaInfo) : String :=
  match powerRes with
  | Except.error _ => "?"
  | Except.ok power =>
    if power = "active" then
      match infoRes with
      | Except.error _ => "?"
      | Except.ok info =>
          info.title ++
            (if info.programTitle = "" then ""
             else ": " ++ stripInvalid info.programTitle)
    else power

/-! Publisher: `_tweet`. -/

/-- Record handed to `twitter.post('statuses/update', st)`. -/
structure TweetRec where
  status : String
  media_ids : Option String
deriving DecidableEq

/-- JS truthiness of a string-or-undefined value: `undefined` and the empty
string are falsy. -/
def truthyStr (s : Option String) : Bool :=
  !(s.getD "" = "")

/-- Variant A `_tweet` record construction (src/index.js lines 201-208):
`status + ' ⏰ ' + parseInt(_.now() / 1000) + 'UTC'`, with `media_ids` set
only when truthy.  `now_ms` is the `_.now()` millisecond clock;
`parseInt` on the nonnegative quotient is truncating division. -/
def tweetRecordA (status : String) (media_ids : Option String) (now_ms : Nat) :
    TweetRec :=
  let st : TweetRec :=
    { status := status ++ " ⏰ " ++ toString (now_ms / 1000) ++ "UTC"
      media_ids := none }
  if truthyStr media_ids then { st with media_ids := media_ids } else st

/-- Variant B `_tweet` record construction (src/index.js lines 452-459);
identical to variant A (the variants differ only in how the post error is
handled afterwards). -/
def tweetRecordB (status : String) (media_ids : Option String) (now_ms : Nat) :
    TweetRec :=
  let st : TweetRec :=
    { status := status ++ " ⏰ " ++ toString (now_ms / 1000) ++ "UTC"
      media_ids := none }
  if truthyStr media_ids then { st with media_ids := media_ids } else st

/-! Poll-loop ticks.  Each tick is a pure function of the resolved external
results and the current state; the observable effects are collected in
`LoopOut`. -/

/-- Observable outcome of one poll-loop tick: successor state, status texts
handed to `_tweet`, error-log lines, and promise rejections left unhandled
(no `await`, no `.catch`). -/
structure LoopOut where
  state : AppState
  posts : List String
  errLogs : List String
  unhandled : List String
deriving DecidableEq

/-- Variant A `_getNetatmoStationData` (src/index.js lines 213-225) as a
function of the `getStationsData` callback arguments (`err` flag and first
device) and the lux buffer: `_calcLux()` output plus either the fixed error
marker or the parsed device fragment.  The wrapped promise always resolves
(the executor installs no reject path). -/
def getNetatmoStationDataA (err : Bool) (dev : Device) (luxes : List Nat) :
    String × List Nat :=
  let lux := calcLux luxes
  (lux.fst ++ (if err then "Netatmo error! " else (parseNetatmoDevice dev).fst),
   lux.snd)

/-- Variant B `_getNetatomoStationData` (sic, src/index.js lines 468-480);
textually the same as variant A. -/
def getNetatomoStationDataB (err : Bool) (dev : Device) (luxes : List Nat) :
    String × List Nat :=
  let lux := calcLuxB luxes
  (lux.fst ++ (if err then "Netatmo error! " else (parseNetatmoDeviceB dev).fst),
   lux.snd)

/-- Variant A `updateNetatmoStatus` (src/index.js lines 119-130).  The fetch
promise never rejects, so the `catch` branch (overwriting `netatmoStatus`
with `err.message`) is unreachable and not modelled.  On a changed fragment
the tweet is fired without `await`: a failing post is caught nowhere and not
logged by this path — it surfaces as an unhandled promise rejection
(`tweetOk` is the fate of that post). -/
def updateNetatmoStatusA (err : Bool) (dev : Device) (tweetOk : Bool)
    (s : AppState) : LoopOut :=
  let r := getNetatmoStationDataA err dev s.luxes
  let s1 : AppState := { s with luxes := r.snd }
  if s1.netatmoStatus = r.fst then
    { state := s1, posts := [], errLogs := [], unhandled := [] }
  else
    let s2 : AppState := { s1 with netatmoStatus := r.fst }
    { state := s2
      posts := [composite s2]
      errLogs := []
      unhandled := if tweetOk then [] else ["statuses/update rejected"] }

/-- Variant A `updateBraviaStatus` (src/index.js lines 132-150).
`_getBraviaStatus` never rejects (its own catch returns `?`), so the first
`catch` branch is unreachable; the fragment is always `📺 ` plus the
resolved status.  On a changed fragment the tweet is awaited and a failure
is caught and logged. -/
def updateBraviaStatusA (powerRes : Except String String)
    (infoRes : Except String BraviaInfo) (tweetOk : Bool) (s : AppState) :
    LoopOut :=
  let braviaStatus := "📺 " ++ getBraviaStatusA powerRes infoRes
  if s.braviaStatus = braviaStatus then
    { state := s, posts := [], errLogs := [], unhandled := [] }
  else
    let s2 : AppState := { s with braviaStatus := braviaStatus }
    { state := s2
      posts := [composite s2]
      errLogs := if tweetOk then [] else ["tweet rejected"]
      unhandled := [] }

/-- Variant B `startNetatmoMonitor` (src/index.js lines 405-413): stores the
fetched status and re-arms the timer; it never calls `_tweet`. -/
def startNetatmoMonitorTickB (err : Bool) (dev : Device) (s : AppState) :
    LoopOut :=
  let r := getNetatomoStationDataB err dev s.luxes
  { state := { s with luxes := r.snd, netatmoStatus := r.fst }
    posts := [], errLogs := [], unhandled := [] }

/-- Variant B `startBraviaMonitor` (src/index.js lines 415-428).  Variant B
`_tweet` handles the post result in its own callback, logging an error on
failure, so nothing is left unhandled. -/
def startBraviaMonitorTickB (powerRes : Except String String)
    (infoRes : Except String BraviaInfo) (tweetOk : Bool) (s : AppState) :
    LoopOut :=
  let status := "📺 " ++ getBraviaStatusB powerRes infoRes
  if s.braviaStatus = status then
    { state := s, posts := [], errLogs := [], unhandled := [] }
  else
    let s2 : AppState := { s with braviaStatus := status }
    { state := s2
      posts := [composite s2]
      errLogs := if tweetOk then [] else ["Error:"]
      unhandled := [] }

/-! BLE discover handler. -/

/-- The `noble.on('discover')` handler (variant A src/index.js lines 79-93;
variant B lines 347-361 is identical up to a log level).  `localName` is
`none` when absent or not a string; `manufacturerData` is the optional
buffer as a byte list.  The anchored
regex test `name.match(/^BLECAST_BL/)` is the code-point prefix test.
`data.readUInt8(5)` is evaluated first and throws a
`RangeError` when the buffer has fewer than 6 bytes — there is no length
guard in the source. -/
def discoverHandler (localName : Option String)
    (manufacturerData : Option (List Nat)) (luxes : List Nat) :
    Except String (List Nat) :=
  match localName, manufacturerData with
  | some name, some data =>
    if "BLECAST_BL".data.isPrefixOf name.data then
      if 6 ≤ data.length then
        Except.ok (luxes ++ [data.getD 5 0 * 256 + data.getD 4 0])
      else
        Except.error "RangeError"
    else
      Except.ok luxes
  | _, _ => Except.ok luxes

/-! Capture-and-post workflow: the camera `read` handlers. -/

/-- Observable outcome of one camera `read` event: `(status, media_ids)`
pairs handed to `_tweet`, whether `setTimeout(() => cam.start(), ...)` was
reached, error-log lines, and an uncaught exception if one is thrown. -/
structure CamOut where
  posts : List (String × Option String)
  rearmed : Bool
  errLogs : List String
  fault : Option String
deriving DecidableEq

/-- Variant A `_onCameraRead` (src/index.js lines 174-199).  `uploadRes`
is the resolved outcome of the `readFileSync` + `media/upload` try-block
(`ok` carries `media.media_id_string`, `error` the caught message); on
failure the status gains `📸` plus the message and no media handle.  The
tweet is awaited with a catch that logs (`tweetOk` is its fate), and the
cooldown re-arm is the last statement, reached on every branch. -/
def onCameraReadA (camErr : Option String) (filename : String)
    (uploadRes : Except String String) (tweetOk : Bool) (s : AppState) :
    CamOut :=
  let logs0 := match camErr with | some e => [e] | none => []
  if filename = IMG_FILENAME then
    match uploadRes with
    | Except.ok mid =>
      { posts := [(composite s, some mid)]
        rearmed := true
        errLogs := logs0 ++ (if tweetOk then [] else ["tweet error"])
        fault := none }
    | Except.error e =>
      { posts := [(composite s ++ "📸" ++ e, none)]
        rearmed := true
        errLogs := logs0 ++ [e] ++ (if tweetOk then [] else ["tweet error"])
        fault := none }
  else
    { posts := [], rearmed := false, errLogs := logs0, fault := none }

/-- Variant B `cam.on('read')` handler (src/index.js lines 375-397).
`readFileSync` is not wrapped in any try, so a read failure is an uncaught
throw before the upload and before the re-arm.  On a read success the
re-arm `setTimeout` runs synchronously right after `twitter.post` is
initiated; the upload callback then either tweets (upload ok) or executes
`status += '📸 Cam error!'` — an assignment to the `const` binding `status`
declared at line 384, which in strict mode throws
`TypeError: Assignment to constant variable.` before `_tweet` is reached. -/
def onCameraReadB (camErr : Option String) (filename : String)
    (readOk : Bool) (uploadRes : Except String String) (s : AppState) :
    CamOut :=
  let logs0 := match camErr with | some e => [e] | none => []
  if filename = IMG_FILENAME then
    if readOk then
      match uploadRes with
      | Except.ok mid =>
        { posts := [(composite s, some mid)]
          rearmed := true
          errLogs := logs0
          fault := none }
      | Except.error _ =>
        { posts := []
          rearmed := true
          errLogs := logs0
          fault := some "TypeError: Assignment to constant variable." }
    else
      { posts := [], rearmed := false, errLogs := logs0
        fault := some "readFileSync threw" }
  else
    { posts := [], rearmed := false, errLogs := logs0, fault := none }

/-! Claim theorems. -/

/-- C3: for every non-empty sample buffer, `_calcLux` returns
`"<emoji> <mean> "` where `mean` is the arithmetic mean of the samples
rounded half-up to the nearest integer (`jsRoundDiv`, proved here equal to
the `Nat.floor` of mean + 1/2 over `ℚ`), and the emoji is picked by strict
greater-than thresholds 2750, 2000, 1000, 500, 100, 10, else the lowest
bucket; a mean exactly at a threshold selects the lower bucket. -/
theorem c3_calcLux_mean_and_buckets :
    (∀ t n : Nat, 0 < n → jsRoundDiv t n = ⌊(t : ℚ) / (n : ℚ) + 1 / 2⌋₊) ∧
    (∀ l : List Nat, l ≠ [] →
      (calcLux l).fst =
        (if 2750 < jsRoundDiv (sumLuxes l) l.length then "☀️" else
         if 2000 < jsRoundDiv (sumLuxes l) l.length then "🌤" else
         if 1000 < jsRoundDiv (sumLuxes l) l.length then "⛅️" else
         if 500 < jsRoundDiv (sumLuxes l) l.length then "☁️" else
         if 100 < jsRoundDiv (sumLuxes l) l.length then "💡" else
         if 10 < jsRoundDiv (sumLuxes l) l.length then "🕯" else "👻")
        ++ " " ++ toString (jsRoundDiv (sumLuxes l) l.length) ++ " ") ∧
    calcLux [2750] = ("🌤 2750 ", []) ∧
    calcLux [2000] = ("⛅️ 2000 ", []) ∧
    calcLux [1000] = ("☁️ 1000 ", []) ∧
    calcLux [500] = ("💡 500 ", []) ∧
    calcLux [100] = ("🕯 100 ", []) ∧
    calcLux [10] = ("👻 10 ", []) := by
  refine ⟨?_, ?_, by decide, by decide, by decide, by decide, by decide, by decide⟩
  · intro t n hn
    have hcast : (t : ℚ) / (n : ℚ) + 1 / 2 =
        ((2 * t + n : ℕ) : ℚ) / ((2 * n : ℕ) : ℚ) := by
      have hn' : (n : ℚ) ≠ 0 := Nat.cast_ne_zero.mpr hn.ne'
      push_cast
      field_simp
      ring
    rw [hcast, Nat.floor_div_eq_div]
    rfl
  · intro l hl
    have h0 : ¬ l.length = 0 := by
      simpa [List.length_eq_zero] using hl
    simp only [calcLux, h0, if_false]

/-- C3 witness: applying the universally quantified parts of
`c3_calcLux_mean_and_buckets` to the concrete buffer `[308]` (and the
rounding part to 617/2). -/
theorem c3_witness :
    (0 < 2 ∧ jsRoundDiv 617 2 = ⌊(617 : ℚ) / (2 : ℚ) + 1 / 2⌋₊) ∧
    (([308] : List Nat) ≠ [] ∧ (calcLux [308]).fst = "💡 308 ") := by
  refine ⟨⟨by decide, c3_calcLux_mean_and_buckets.1 617 2 (by decide)⟩,
    ⟨by decide, ?_⟩⟩
  have h := c3_calcLux_mean_and_buckets.2.1 [308] (by decide)
  exact h.trans (by decide)

/-- C9: an empty sample buffer yields the fixed asleep fragment `💡💤 `
without any mean computation; after every `_calcLux` call the buffer is
empty, so a second consecutive call with no new samples again returns the
asleep fragment. -/
theorem c9_calcLux_empty_drain :
    calcLux [] = ("💡💤 ", []) ∧
    (∀ l : List Nat, (calcLux l).snd = []) ∧
    (∀ l : List Nat, calcLux (calcLux l).snd = ("💡💤 ", [])) := by
  have hsnd : ∀ l : List Nat, (calcLux l).snd = [] := by
    intro l
    by_cases h : l.length = 0
    · have : l = [] := List.length_eq_zero.mp h
      subst this
      decide
    · simp only [calcLux, h, if_false]
  refine ⟨by decide, hsnd, ?_⟩
  intro l
  rw [hsnd l]
  decide

/-- C10: the async variant and the callback variant define extensionally
equal pure formatting functions: `_calcLux` and `parseNetatmoDevice` agree
on every input in both variants. -/
theorem c10_variant_equivalence :
    (∀ l : List Nat, calcLux l = calcLuxB l) ∧
    (∀ d : Device, parseNetatmoDevice d = parseNetatmoDeviceB d) :=
  ⟨fun _ => rfl, fun _ => rfl⟩

/-- C7 counterexample: at the reading (21, 55, 1008, 450, 40) the returned
fragment is not the concatenation of `"<emoji> <value><unit> "`
sub-fragments with units ℃, %, hPa, ppm, dB: the Noise unit string in the
source table is `dB ` (trailing space included), so the fragment ends in
`dB` followed by two spaces, not one. -/
theorem c7_counterexample :
    (parseNetatmoDevice ⟨some ⟨21, 55, 1008, 450, 40⟩⟩).fst ≠
      "🌡 21℃ 💧 55% 🎈 1008hPa 🌳 450ppm 🔊 40dB " := by decide

/-- C7 amended: for a present reading, `parseNetatmoDevice` returns the
`"<emoji> <value><unit> "` sub-fragments concatenated in the fixed order
Temperature (℃), Humidity (%), Pressure (hPa), CO2 (ppm), Noise — the
Noise unit string being `dB ` with a trailing space, so its sub-fragment
ends in two spaces; for an absent reading it returns the empty fragment and
only logs one warning. -/
theorem c7_fragment_format :
    (∀ r : Reading,
      parseNetatmoDevice ⟨some r⟩ =
        ("" ++ "🌡" ++ " " ++ toString r.Temperature ++ "℃" ++ " "
            ++ "💧" ++ " " ++ toString r.Humidity ++ "%" ++ " "
            ++ "🎈" ++ " " ++ toString r.Pressure ++ "hPa" ++ " "
            ++ "🌳" ++ " " ++ toString r.CO2 ++ "ppm" ++ " "
            ++ "🔊" ++ " " ++ toString r.Noise ++ "dB " ++ " ",
         [])) ∧
    parseNetatmoDevice ⟨none⟩ = ("", ["data: undefined"]) :=
  ⟨fun _ => rfl, rfl⟩

/-- C8: `_tweet` posts exactly the given text with the fixed separator
` ⏰ `, the millisecond clock truncated to integer Unix seconds, and the
`UTC` suffix; the posted record carries the media handle exactly when a
(non-empty, hence truthy) one was provided; both variants build the same
record. -/
theorem c8_tweet_record :
    (∀ (status : String) (now_ms : Nat),
      tweetRecordA status none now_ms =
        { status := status ++ " ⏰ " ++ toString (now_ms / 1000) ++ "UTC"
          media_ids := none }) ∧
    (∀ (status m : String) (now_ms : Nat), m ≠ "" →
      tweetRecordA status (some m) now_ms =
        { status := status ++ " ⏰ " ++ toString (now_ms / 1000) ++ "UTC"
          media_ids := some m }) ∧
    (∀ (status : String) (m : Option String) (now_ms : Nat),
      tweetRecordB status m now_ms = tweetRecordA status m now_ms) := by
  refine ⟨fun status now_ms => rfl, fun status m now_ms hm => ?_, fun _ _ _ => rfl⟩
  simp only [tweetRecordA, truthyStr, Option.getD_some, hm, decide_False,
    Bool.not_false, if_true]

/-- C8 witness: applying `c8_tweet_record` at a concrete handle and clock. -/
theorem c8_witness :
    ("12345" : String) ≠ "" ∧
    tweetRecordA "hi" (some "12345") 1700000000123 =
      { status := "hi ⏰ 1700000000UTC", media_ids := some "12345" } := by
  refine ⟨by decide, ?_⟩
  have h := c8_tweet_record.2.1 "hi" "12345" 1700000000123 (by decide)
  exact h.trans (by decide)

/-- C6: the display fragment is the raw power keyword when not `active`,
the playing title (plus, when a program title is present, a colon and the
program title with exactly the private-use-area and pictograph code points
U+E000-U+F8FF and U+1F300-U+1F5FF removed and every other character kept)
when `active`, and the fixed `?` marker on any failure of either request;
the display loop always stores the fragment behind the fixed `📺 `
prefix. -/
theorem c6_bravia_fragment :
    (∀ (e : String) (i : Except String BraviaInfo),
      getBraviaStatusA (Except.error e) i = "?") ∧
    (∀ e : String,
      getBraviaStatusA (Except.ok "active") (Except.error e) = "?") ∧
    (∀ (st : String) (i : Except String BraviaInfo), st ≠ "active" →
      getBraviaStatusA (Except.ok st) i = st) ∧
    (∀ info : BraviaInfo,
      getBraviaStatusA (Except.ok "active") (Except.ok info) =
        info.title ++
          (if info.programTitle = "" then ""
           else ": " ++ stripInvalid info.programTitle)) ∧
    (∀ s : String, (stripInvalid s).data =
      s.data.filter (fun c =>
        decide (¬ ((0xE000 ≤ c.toNat ∧ c.toNat ≤ 0xF8FF) ∨
                   (0x1F300 ≤ c.toNat ∧ c.toNat ≤ 0x1F5FF))))) ∧
    (∀ p i (tweetOk : Bool) (s : AppState),
      (updateBraviaStatusA p i tweetOk s).state.braviaStatus =
        "📺 " ++ getBraviaStatusA p i) := by
  refine ⟨fun e i => rfl, fun e => rfl, ?_, fun info => rfl, ?_, ?_⟩
  · intro st i hst
    simp [getBraviaStatusA, hst]
  · intro s
    show s.data.filter _ = s.data.filter _
    apply List.filter_congr
    intro c _
    simp only [isInvalidCodePoint]
    rw [Bool.eq_iff_iff]
    simp only [Bool.not_eq_true', Bool.or_eq_true, decide_eq_true_eq,
      Bool.not_eq_true, Bool.or_eq_false_iff, decide_eq_false_iff_not]
    omega
  · intro p i tweetOk s
    by_cases hc : s.braviaStatus = "📺 " ++ getBraviaStatusA p i
    · simp [updateBraviaStatusA, hc]
    · simp [updateBraviaStatusA, hc]

/-- C6 witness: a `standby` power status yields the raw keyword fragment. -/
theorem c6_witness :
    ("standby" : String) ≠ "active" ∧
    getBraviaStatusA (Except.ok "standby") (Except.ok ⟨"t", ""⟩) = "standby" :=
  ⟨by decide, c6_bravia_fragment.2.2.1 "standby" (Except.ok ⟨"t", ""⟩) (by decide)⟩

/-- C4 counterexample: on an event whose name passes the prefix guard and
whose manufacturer data is present but only 5 bytes long, the discover
handler faults (the unguarded `readUInt8(5)` raises a range error) rather
than returning without recording — so it is false that the handler never
faults on any event shape. -/
theorem c4_counterexample :
    discoverHandler (some "BLECAST_BL01") (some [0, 0, 0, 0, 0x34]) [] =
      Except.error "RangeError" := rfl

/-- C4 amended: a sample is recorded exactly when the advertised name is a
string with prefix `BLECAST_BL` and manufacturer data is present with at
least 6 bytes, the value being the little-endian 16-bit integer from bytes
4 (low) and 5 (high) — bytes ending in 0x34, 0x01 yield 308; events failing
the name or presence guard are ignored without fault; but when the guard
passes and the data has fewer than 6 bytes the handler raises a range
error. -/
theorem c4_sampler_guard :
    (∀ (name : String) (data luxes : List Nat),
      "BLECAST_BL".data.isPrefixOf name.data = true → 6 ≤ data.length →
      discoverHandler (some name) (some data) luxes =
        Except.ok (luxes ++ [data.getD 5 0 * 256 + data.getD 4 0])) ∧
    (∀ (data : Option (List Nat)) (luxes : List Nat),
      discoverHandler none data luxes = Except.ok luxes) ∧
    (∀ (name : String) (data : Option (List Nat)) (luxes : List Nat),
      "BLECAST_BL".data.isPrefixOf name.data = false →
      discoverHandler (some name) data luxes = Except.ok luxes) ∧
    (∀ (name : String) (luxes : List Nat),
      discoverHandler (some name) none luxes = Except.ok luxes) ∧
    (∀ (name : String) (data luxes : List Nat),
      "BLECAST_BL".data.isPrefixOf name.data = true → data.length < 6 →
      discoverHandler (some name) (some data) luxes =
        Except.error "RangeError") ∧
    discoverHandler (some "BLECAST_BL") (some [0, 0, 0, 0, 0x34, 0x01]) [] =
      Except.ok [308] := by
  refine ⟨?_, ?_, ?_, fun name luxes => rfl, ?_, rfl⟩
  · intro name data luxes hpre hlen
    simp [discoverHandler, hpre, hlen]
  · intro data luxes
    cases data <;> rfl
  · intro name data luxes hpre
    cases data <;> simp [discoverHandler, hpre]
  · intro name data luxes hpre hlt
    have hnot : ¬ 6 ≤ data.length := by omega
    simp [discoverHandler, hpre, hnot]

/-- C4 witness: applying the recording part of `c4_sampler_guard` at a
concrete conforming event. -/
theorem c4_witness :
    ("BLECAST_BL".data.isPrefixOf "BLECAST_BL01".data = true) ∧
    6 ≤ List.length [0, 0, 0, 0, 0x34, 0x01] ∧
    discoverHandler (some "BLECAST_BL01") (some [0, 0, 0, 0, 0x34, 0x01]) [] =
      Except.ok ([] ++ [List.getD [0, 0, 0, 0, 0x34, 0x01] 5 0 * 256 +
        List.getD [0, 0, 0, 0, 0x34, 0x01] 4 0]) :=
  ⟨by decide, by decide,
    c4_sampler_guard.1 "BLECAST_BL01" [0, 0, 0, 0, 0x34, 0x01] []
      (by decide) (by decide)⟩

/-- C1 counterexample: in variant B, a weather tick that changes the
stored fragment (hence the composite) performs no publish call at all —
`startNetatmoMonitor` never calls `_tweet`. -/
theorem c1_counterexample :
    (startNetatmoMonitorTickB true ⟨none⟩ initialState).posts = [] ∧
    (startNetatmoMonitorTickB true ⟨none⟩ initialState).state.netatmoStatus ≠
      initialState.netatmoStatus := by decide

/-- C1 amended: in variant A (both loops) and in variant B's display loop, a
tick publishes the freshly assembled composite exactly once when the newly
computed fragment differs from the stored one and not at all when it is
identical; variant B's weather loop stores its new fragment without ever
publishing. -/
theorem c1_change_driven_publish :
    (∀ (err : Bool) (dev : Device) (tweetOk : Bool) (s : AppState),
      (updateNetatmoStatusA err dev tweetOk s).posts =
        if s.netatmoStatus = (getNetatmoStationDataA err dev s.luxes).fst then []
        else [composite (updateNetatmoStatusA err dev tweetOk s).state]) ∧
    (∀ p i (tweetOk : Bool) (s : AppState),
      (updateBraviaStatusA p i tweetOk s).posts =
        if s.braviaStatus = "📺 " ++ getBraviaStatusA p i then []
        else [composite (updateBraviaStatusA p i tweetOk s).state]) ∧
    (∀ p i (tweetOk : Bool) (s : AppState),
      (startBraviaMonitorTickB p i tweetOk s).posts =
        if s.braviaStatus = "📺 " ++ getBraviaStatusB p i then []
        else [composite (startBraviaMonitorTickB p i tweetOk s).state]) ∧
    (∀ (err : Bool) (dev : Device) (s : AppState),
      (startNetatmoMonitorTickB err dev s).posts = []) := by
  refine ⟨?_, ?_, ?_, fun err dev s => rfl⟩
  · intro err dev tweetOk s
    by_cases hc : s.netatmoStatus = (getNetatmoStationDataA err dev s.luxes).fst
    · simp [updateNetatmoStatusA, hc]
    · simp [updateNetatmoStatusA, hc]
  · intro p i tweetOk s
    by_cases hc : s.braviaStatus = "📺 " ++ getBraviaStatusA p i
    · simp [updateBraviaStatusA, hc]
    · simp [updateBraviaStatusA, hc]
  · intro p i tweetOk s
    by_cases hc : s.braviaStatus = "📺 " ++ getBraviaStatusB p i
    · simp [startBraviaMonitorTickB, hc]
    · simp [startBraviaMonitorTickB, hc]

/-- C5 counterexample: in variant A's weather loop, when the (changed)
composite is published and the post fails, the failure is neither caught
nor logged — the fire-and-forget tweet leaves an unhandled promise
rejection and the error log stays empty. -/
theorem c5_counterexample :
    (updateNetatmoStatusA true ⟨none⟩ false initialState).unhandled ≠ [] ∧
    (updateNetatmoStatusA true ⟨none⟩ false initialState).errLogs = [] := by
  decide

/-- C5 amended: a publication failure never changes program state (the
stored fragments keep their freshly assigned values; no compensating
action) and never aborts the tick; it is caught and logged in variant A's
display loop and capture workflow and in variant B's display loop, but in
variant A's weather loop the rejected fire-and-forget publish is neither
caught nor logged and escapes as an unhandled rejection. -/
theorem c5_publish_failure_effects :
    (∀ (err : Bool) (dev : Device) (tweetOk : Bool) (s : AppState),
      (updateNetatmoStatusA err dev tweetOk s).state =
        (updateNetatmoStatusA err dev true s).state ∧
      (updateNetatmoStatusA err dev tweetOk s).posts =
        (updateNetatmoStatusA err dev true s).posts) ∧
    (∀ p i (tweetOk : Bool) (s : AppState),
      (updateBraviaStatusA p i tweetOk s).state =
        (updateBraviaStatusA p i true s).state) ∧
    (∀ p i (s : AppState),
      (updateBraviaStatusA p i false s).errLogs.length =
        (updateBraviaStatusA p i false s).posts.length ∧
      (updateBraviaStatusA p i false s).unhandled = []) ∧
    (∀ p i (s : AppState),
      (startBraviaMonitorTickB p i false s).errLogs.length =
        (startBraviaMonitorTickB p i false s).posts.length ∧
      (startBraviaMonitorTickB p i false s).unhandled = [] ∧
      (startBraviaMonitorTickB p i false s).state =
        (startBraviaMonitorTickB p i true s).state) ∧
    (∀ (err : Bool) (dev : Device) (s : AppState),
      (updateNetatmoStatusA err dev false s).unhandled.length =
        (updateNetatmoStatusA err dev false s).posts.length ∧
      (updateNetatmoStatusA err dev false s).errLogs = []) ∧
    (∀ (u : Except String String) (s : AppState),
      (onCameraReadA none IMG_FILENAME u false s).fault = none ∧
      (onCameraReadA none IMG_FILENAME u false s).posts =
        (onCameraReadA none IMG_FILENAME u true s).posts) := by
  refine ⟨?_, ?_, ?_, ?_, ?_, ?_⟩
  · intro err dev tweetOk s
    by_cases hc : s.netatmoStatus = (getNetatmoStationDataA err dev s.luxes).fst
    · simp [updateNetatmoStatusA, hc]
    · simp [updateNetatmoStatusA, hc]
  · intro p i tweetOk s
    by_cases hc : s.braviaStatus = "📺 " ++ getBraviaStatusA p i
    · simp [updateBraviaStatusA, hc]
    · simp [updateBraviaStatusA, hc]
  · intro p i s
    by_cases hc : s.braviaStatus = "📺 " ++ getBraviaStatusA p i
    · simp [updateBraviaStatusA, hc]
    · simp [updateBraviaStatusA, hc]
  · intro p i s
    by_cases hc : s.braviaStatus = "📺 " ++ getBraviaStatusB p i
    · simp [startBraviaMonitorTickB, hc]
    · simp [startBraviaMonitorTickB, hc]
  · intro err dev s
    by_cases hc : s.netatmoStatus = (getNetatmoStationDataA err dev s.luxes).fst
    · simp [updateNetatmoStatusA, hc]
    · simp [updateNetatmoStatusA, hc]
  · intro u s
    cases u <;> simp [onCameraReadA]

/-- C2: the claim matches the program's evident intent (variant A behaves
exactly so), but variant B's capture handler is broken on the upload-failure
branch: `status += '📸 Cam error!'` assigns to the `const` binding `status`,
throwing a TypeError inside the upload callback before `_tweet` is reached,
so no publish call happens at all on that branch (the cooldown had already
been re-armed).  This theorem evaluates both variants at the failing
input. -/
theorem c2_capture_upload_failure :
    (onCameraReadB none "raspicam.jpg" true (Except.error "upload failed")
        initialState).posts = [] ∧
    (onCameraReadB none "raspicam.jpg" true (Except.error "upload failed")
        initialState).rearmed = true ∧
    (onCameraReadB none "raspicam.jpg" true (Except.error "upload failed")
        initialState).fault =
      some "TypeError: Assignment to constant variable." ∧
    (onCameraReadA none "raspicam.jpg" (Except.error "upload failed") true
        initialState).posts =
      [(composite initialState ++ "📸" ++ "upload failed", none)] ∧
    (onCameraReadA none "raspicam.jpg" (Except.error "upload failed") true
        initialState).rearmed = true ∧
    (onCameraReadA none "raspicam.jpg" (Except.ok "711") true
        initialState).posts = [(composite initialState, some "711")] := by
  decide

end Kitazawagosho
